import Mathlib

/-!
Verification of the query-to-filtered-search pipeline of `src/server/server.js`.

The server is a thin Express façade: `buildFilter` turns the optional request
fields into a Qdrant filter, `POST /api/search` validates the query, embeds it,
builds the filter and delegates to the vector search, and `GET /api/health`
lists collections.  We embed the JavaScript values the handlers inspect, the
`Number` coercion and truthiness semantics they rely on, and the handlers
themselves as pure Lean functions; the two external collaborators (embedding
model, Qdrant client) are passed in as function arguments returning `Except`,
mirroring `async` calls that either resolve or throw.
-/

/-- A JavaScript number is either NaN or an actual numeric value.  The values
flowing through this server (`minImportance`, `topK`) are JSON numbers, which
we model as rationals; no arithmetic beyond comparison with zero is performed
on them. -/
inductive JsNum where
  | nan : JsNum
  | val : Rat → JsNum
deriving DecidableEq, Repr

/-- The JavaScript values the request handlers can receive in a JSON body
field.  `undefined` is the value of an absent field after destructuring.
Plain (non-array) objects are modelled opaquely by `obj`: the handlers never
look inside them.  Arrays are not modelled; no claim involves an array-valued
field. -/
inductive JsValue where
  | undefined : JsValue
  | null : JsValue
  | bool : Bool → JsValue
  | num : JsNum → JsValue
  | str : String → JsValue
  | obj : JsValue
deriving DecidableEq, Repr

/-- JavaScript truthiness: `undefined`, `null`, `false`, `NaN`, `0` and the
empty string are falsy; every other value (including any plain object) is
truthy. -/
def truthy : JsValue → Bool
  | JsValue.undefined => false
  | JsValue.null => false
  | JsValue.bool b => b
  | JsValue.num JsNum.nan => false
  | JsValue.num (JsNum.val q) => if q = 0 then false else true
  | JsValue.str s => if s = "" then false else true
  | JsValue.obj => true

/-- Whether `typeof v === 'string'`. -/
def isJsString : JsValue → Bool
  | JsValue.str _ => true
  | _ => false

/-- Numeric value of a list of decimal digit characters, most significant
first. -/
def natOfDigits (cs : List Char) : Nat :=
  cs.foldl (fun acc c => acc * 10 + (c.toNat - '0'.toNat)) 0

/-- Parse an unsigned decimal literal (`123`, `123.45`, `123.`, `.45`) as a
rational; `none` when the characters are not of that form. -/
def parseUnsignedDec (cs : List Char) : Option Rat :=
  let intPart := cs.takeWhile Char.isDigit
  let rest := cs.dropWhile Char.isDigit
  match rest with
  | [] => if intPart.isEmpty then none else some (natOfDigits intPart : Rat)
  | '.' :: frac =>
      if frac.all Char.isDigit && !(intPart.isEmpty && frac.isEmpty) then
        some ((natOfDigits intPart : Rat) + (natOfDigits frac : Rat) / (10 : Rat) ^ frac.length)
      else none
  | _ => none

/-- Parse an optionally signed decimal literal. -/
def parseSignedDec : List Char → Option Rat
  | '-' :: cs => (parseUnsignedDec cs).map (fun q => -q)
  | '+' :: cs => parseUnsignedDec cs
  | cs => parseUnsignedDec cs

/-- Whether a character is JS whitespace (the forms occurring in practice:
space, tab, newline, carriage return, form feed, vertical tab). -/
def isJsWhitespace (c : Char) : Bool :=
  c = ' ' || c = '\t' || c = '\n' || c = '\r' || c = '\x0c' || c = '\x0b'

/-- Strip leading and trailing JS whitespace from a character list. -/
def trimWs (cs : List Char) : List Char :=
  ((cs.dropWhile isJsWhitespace).reverse.dropWhile isJsWhitespace).reverse

/-- Models the JS `ToNumber` coercion of a string: whitespace is trimmed, the
empty string coerces to `0`, a signed decimal literal to its value, and
anything else to `NaN`.  (The hexadecimal, exponent and `Infinity` literal
forms of `StringNumericLiteral` are not modelled; no value in this development
uses them.) -/
def parseJsNumber (s : String) : JsNum :=
  let t := trimWs s.toList
  if t.isEmpty then JsNum.val 0
  else
    match parseSignedDec t with
    | some q => JsNum.val q
    | none => JsNum.nan

/-- The JS `Number(v)` coercion on the modelled values: `undefined` and plain
objects coerce to `NaN`, `null` to `0`, booleans to `0`/`1`, numbers to
themselves, strings via `parseJsNumber`. -/
def toNumber : JsValue → JsNum
  | JsValue.undefined => JsNum.nan
  | JsValue.null => JsNum.val 0
  | JsValue.bool b => JsNum.val (if b then 1 else 0)
  | JsValue.num n => n
  | JsValue.str s => parseJsNumber s
  | JsValue.obj => JsNum.nan

/-- A Qdrant filter clause: an exact-match equality clause
`\x7b key, match: \x7b value \x7d \x7d` or a numeric inclusive lower-bound range clause
`\x7b key, range: \x7b gte \x7d \x7d`. -/
inductive Clause where
  | matchValue : String → JsValue → Clause
  | rangeGte : String → Rat → Clause
deriving DecidableEq, Repr

/-- Clause pushed for `tag`: `if (tag) must.push({key:'tags', match:{value:tag}})`. -/
def tagClauses (tag : JsValue) : List Clause :=
  if truthy tag then [Clause.matchValue "tags" tag] else []

/-- Clauses pushed for `minImportance`: guarded first by truthiness, then by
`Number.isNaN` on the coerced value. -/
def importanceClauses (minImportance : JsValue) : List Clause :=
  if truthy minImportance then
    match toNumber minImportance with
    | JsNum.nan => []
    | JsNum.val q => [Clause.rangeGte "importance" q]
  else []

/-- Clause pushed for `docId`: `if (docId) must.push({key:'doc_id', match:{value:docId}})`. -/
def docIdClauses (docId : JsValue) : List Clause :=
  if truthy docId then [Clause.matchValue "doc_id" docId] else []

/-- Clause pushed for `source`: `if (source) must.push({key:'source', match:{value:source}})`. -/
def sourceClauses (source : JsValue) : List Clause :=
  if truthy source then [Clause.matchValue "source" source] else []

/-- The `must` list accumulated by `buildFilter`, in the push order of the
source: `tag`, then `minImportance`, then `docId`, then `source`. -/
def mustList (tag minImportance docId source : JsValue) : List Clause :=
  tagClauses tag ++ importanceClauses minImportance ++ docIdClauses docId ++ sourceClauses source

/-- `buildFilter` of `server.js`: returns `\x7b must \x7d` when at least one clause
was pushed and `undefined` (here `none`) otherwise
(`return must.length ? { must } : undefined`). -/
def buildFilter (tag minImportance docId source : JsValue) : Option (List Clause) :=
  let must := mustList tag minImportance docId source
  if must.isEmpty then none else some must

/-- The clause list of an optional filter; an absent filter constrains
nothing. -/
def filterClauses : Option (List Clause) → List Clause
  | none => []
  | some must => must

/-- The request body fields destructured by the search handler
(`const { query, topK = 5, tag, minImportance, docId, source } = req.body || {}`).
A field absent from the JSON object destructures to `undefined`. -/
structure Body where
  query : JsValue
  topK : JsValue
  tag : JsValue
  minImportance : JsValue
  docId : JsValue
  source : JsValue
deriving DecidableEq, Repr

/-- The empty object `{}` substituted for a missing request body: every field
destructures to `undefined`. -/
def emptyBody : Body :=
  ⟨JsValue.undefined, JsValue.undefined, JsValue.undefined, JsValue.undefined,
   JsValue.undefined, JsValue.undefined⟩

/-- The destructuring default `topK = 5`: it applies exactly when the field is
`undefined`. -/
def effTopK (b : Body) : JsValue :=
  match b.topK with
  | JsValue.undefined => JsValue.num (JsNum.val 5)
  | v => v

/-- The limit passed to the vector search: `Number(topK) || 5`.  `NaN` and `0`
are falsy, so both fall back to `5`; any other number (negative included) is
kept. -/
def limitOf (topK : JsValue) : Rat :=
  match toNumber topK with
  | JsNum.nan => 5
  | JsNum.val q => if q = 0 then 5 else q

/-- A Qdrant point id: an unsigned integer or a UUID string.  (A JS integer in
the safe range stringifies to its decimal digits, matching `Nat.repr`.) -/
inductive PointId where
  | int : Nat → PointId
  | uuid : String → PointId
deriving DecidableEq, Repr

/-- `String(h.id)`: the stringification applied to each match id. -/
def stringifyId : PointId → String
  | PointId.int n => toString n
  | PointId.uuid s => s

/-- One match returned by the vector search: `\x7bid, score, payload\x7d`.  Score and
payload types are opaque parameters: the handler passes both through without
inspecting them. -/
structure QMatch (S P : Type) where
  id : PointId
  score : S
  payload : P
deriving DecidableEq, Repr

/-- The argument object of `qdrant.search(COLLECTION, {...})`. -/
structure SearchArgs (V : Type) where
  vector : V
  limit : Rat
  filter : Option (List Clause)
  with_payload : Bool
  with_vector : Bool
deriving DecidableEq, Repr

/-- One hit of the response: `\x7bid: String(h.id), score: h.score, payload: h.payload\x7d`. -/
structure Hit (S P : Type) where
  id : String
  score : S
  payload : P
deriving DecidableEq, Repr

/-- The JSON body of a `/api/search` response: either `\x7berror\x7d` or
`\x7bcount, hits\x7d`. -/
inductive SearchBody (S P : Type) where
  | err : String → SearchBody S P
  | results : Nat → List (Hit S P) → SearchBody S P
deriving DecidableEq, Repr

/-- The observable outcome of one `/api/search` request: HTTP status, JSON
body, and the calls made to the two collaborators (queries passed to `embed`,
argument objects passed to `qdrant.search`), in order. -/
structure SearchResult (V S P : Type) where
  status : Nat
  body : SearchBody S P
  embedCalls : List String
  searchCalls : List (SearchArgs V)
deriving DecidableEq, Repr

/-- The argument object of the `qdrant.search(COLLECTION, {...})` call made
for a request body `b` once the query has been embedded into `v`:
`\x7bvector, limit: Number(topK) || 5, filter: buildFilter(...), with_payload:
true, with_vector: false\x7d`. -/
def argsOf {V : Type} (v : V) (b : Body) : SearchArgs V :=
  ⟨v, limitOf (effTopK b), buildFilter b.tag b.minImportance b.docId b.source, true, false⟩

/-- The `POST /api/search` handler.  `e` is the embedding collaborator and `s`
the vector-search collaborator; each either resolves or throws, a thrown error
represented by its stringification (`String(e)`), which is what the handler
puts in the 500 body.  The guard `!query || typeof query !== 'string'` rejects
every non-string and the empty string; on the happy path the handler embeds,
builds the filter, searches with the arguments of `argsOf`, and maps each
match to a hit. -/
def searchHandler {V S P : Type} (e : String → Except String V)
    (s : SearchArgs V → Except String (List (QMatch S P)))
    (reqBody : Option Body) : SearchResult V S P :=
  let b := reqBody.getD emptyBody
  match b.query with
  | JsValue.str q =>
      if q = "" then ⟨400, SearchBody.err "query (string) is required", [], []⟩
      else
        match e q with
        | Except.error msg => ⟨500, SearchBody.err msg, [q], []⟩
        | Except.ok v =>
            match s (argsOf v b) with
            | Except.error msg => ⟨500, SearchBody.err msg, [q], [argsOf v b]⟩
            | Except.ok ms =>
                ⟨200,
                 SearchBody.results ms.length
                   (ms.map (fun m => ⟨stringifyId m.id, m.score, m.payload⟩)),
                 [q], [argsOf v b]⟩
  | _ => ⟨400, SearchBody.err "query (string) is required", [], []⟩

/-- One collection as returned by `qdrant.getCollections()`. -/
structure Collection where
  name : String
deriving DecidableEq, Repr

/-- The success value of `qdrant.getCollections()`; the optional chaining
`info.collections?.map(...)` allows the `collections` field to be absent. -/
structure CollectionsInfo where
  collections : Option (List Collection)
deriving DecidableEq, Repr

/-- The JSON body of a `/api/health` response: `\x7bok: true, collections\x7d` or
`\x7bok: false, error\x7d`. -/
inductive HealthBody where
  | ok : Option (List String) → HealthBody
  | err : String → HealthBody
deriving DecidableEq, Repr

/-- The `GET /api/health` handler: status and body as a function of the
outcome of `qdrant.getCollections()`. -/
def healthHandler (getCollections : Except String CollectionsInfo) : Nat × HealthBody :=
  match getCollections with
  | Except.ok info => (200, HealthBody.ok (info.collections.map (fun cs => cs.map Collection.name)))
  | Except.error msg => (500, HealthBody.err msg)

/-- Whether a clause is a range clause on the given key. -/
def isRangeOn (key : String) : Clause → Bool
  | Clause.rangeGte k _ => decide (k = key)
  | _ => false

/-- Whether a clause is an exact-match equality clause on the given key. -/
def isMatchOn (key : String) : Clause → Bool
  | Clause.matchValue k _ => decide (k = key)
  | _ => false

/-- An embedding collaborator that always resolves (vector modelled as `()`). -/
def okEmbed : String → Except String Unit :=
  fun _ => Except.ok ()

/-- An embedding collaborator that always throws. -/
def failEmbed : String → Except String Unit :=
  fun _ => Except.error "embed down"

/-- A search collaborator that always resolves with no matches. -/
def emptySearch : SearchArgs Unit → Except String (List (QMatch Unit Unit)) :=
  fun _ => Except.ok []

/-- A search collaborator that always throws. -/
def failSearch : SearchArgs Unit → Except String (List (QMatch Unit Unit)) :=
  fun _ => Except.error "qdrant down"

/-- A request body carrying only `query: "cats"`. -/
def catsBody : Body :=
  ⟨JsValue.str "cats", JsValue.undefined, JsValue.undefined, JsValue.undefined,
   JsValue.undefined, JsValue.undefined⟩

/-- A request body carrying `query: "cats"` and `topK: 0`. -/
def zeroTopKBody : Body :=
  ⟨JsValue.str "cats", JsValue.num (JsNum.val 0), JsValue.undefined, JsValue.undefined,
   JsValue.undefined, JsValue.undefined⟩

theorem filterClauses_buildFilter (tag mi docId src : JsValue) :
    filterClauses (buildFilter tag mi docId src) = mustList tag mi docId src := by
  rcases h : mustList tag mi docId src with _ | ⟨c, cs⟩ <;>
    simp [buildFilter, filterClauses, h]

theorem importanceClauses_eq_nil (mi : JsValue)
    (h : truthy mi = false ∨ toNumber mi = JsNum.nan) :
    importanceClauses mi = [] := by
  rcases h with h | h
  · simp [importanceClauses, h]
  · cases ht : truthy mi <;> simp [importanceClauses, ht, h]

theorem filter_range_tagClauses (key : String) (v : JsValue) :
    (tagClauses v).filter (isRangeOn key) = [] := by
  cases h : truthy v <;> simp [tagClauses, h, isRangeOn]

theorem filter_range_docIdClauses (key : String) (v : JsValue) :
    (docIdClauses v).filter (isRangeOn key) = [] := by
  cases h : truthy v <;> simp [docIdClauses, h, isRangeOn]

theorem filter_range_sourceClauses (key : String) (v : JsValue) :
    (sourceClauses v).filter (isRangeOn key) = [] := by
  cases h : truthy v <;> simp [sourceClauses, h, isRangeOn]

theorem filter_match_importanceClauses (key : String) (mi : JsValue) :
    (importanceClauses mi).filter (isMatchOn key) = [] := by
  cases ht : truthy mi
  · simp [importanceClauses, ht]
  · rcases hn : toNumber mi with _ | q <;> simp [importanceClauses, ht, hn, isMatchOn]

/-- C1: the `minImportance` field contributes an inclusive lower-bound range
clause on key `importance` with `gte` its numeric coercion whenever it is
truthy and coerces to a valid number; when it is falsy or unparsable it is
silently dropped, yielding the same filter as if it were absent. -/
theorem C1_minImportance_range (tag mi docId src : JsValue) :
    (∀ q : Rat, truthy mi = true → toNumber mi = JsNum.val q →
      (filterClauses (buildFilter tag mi docId src)).filter (isRangeOn "importance")
        = [Clause.rangeGte "importance" q]) ∧
    ((truthy mi = false ∨ toNumber mi = JsNum.nan) →
      buildFilter tag mi docId src = buildFilter tag JsValue.undefined docId src) := by
  constructor
  · intro q ht hn
    rw [filterClauses_buildFilter]
    simp [mustList, List.filter_append, filter_range_tagClauses,
      filter_range_docIdClauses, filter_range_sourceClauses,
      importanceClauses, ht, hn, isRangeOn]
  · intro h
    have hmi : importanceClauses mi = [] := importanceClauses_eq_nil mi h
    have hu : importanceClauses JsValue.undefined = [] := rfl
    have hml : mustList tag mi docId src = mustList tag JsValue.undefined docId src := by
      simp only [mustList]
      rw [hmi, hu]
    simp [buildFilter, hml]

/-- C1 witness: `minImportance = 3` (all other fields absent) yields exactly
one range clause, with inclusive lower bound 3. -/
theorem C1_minImportance_range_witness :
    (filterClauses (buildFilter JsValue.undefined (JsValue.num (JsNum.val 3))
        JsValue.undefined JsValue.undefined)).filter (isRangeOn "importance")
      = [Clause.rangeGte "importance" 3] :=
  (C1_minImportance_range JsValue.undefined (JsValue.num (JsNum.val 3))
    JsValue.undefined JsValue.undefined).1 3 (by decide) (by decide)

/-- C1 counterexample: `minImportance = 0` coerces to the valid number 0
(`Number.isNaN(Number(0))` is false), yet `buildFilter` drops it because `0`
is falsy, contributing no range clause — refuting the claimed "if and only if
it parses as a valid number". -/
theorem C1_counterexample :
    toNumber (JsValue.num (JsNum.val 0)) ≠ JsNum.nan ∧
    buildFilter JsValue.undefined (JsValue.num (JsNum.val 0)) JsValue.undefined JsValue.undefined
      = none := by decide

theorem filter_match_tagClauses_tags (v : JsValue) :
    (tagClauses v).filter (isMatchOn "tags")
      = if truthy v then [Clause.matchValue "tags" v] else [] := by
  cases h : truthy v <;> simp [tagClauses, h, isMatchOn]

theorem filter_match_tagClauses_other (key : String) (v : JsValue) (hk : key ≠ "tags") :
    (tagClauses v).filter (isMatchOn key) = [] := by
  cases h : truthy v <;> simp [tagClauses, h, isMatchOn, Ne.symm hk]

theorem filter_match_docIdClauses_docId (v : JsValue) :
    (docIdClauses v).filter (isMatchOn "doc_id")
      = if truthy v then [Clause.matchValue "doc_id" v] else [] := by
  cases h : truthy v <;> simp [docIdClauses, h, isMatchOn]

theorem filter_match_docIdClauses_other (key : String) (v : JsValue) (hk : key ≠ "doc_id") :
    (docIdClauses v).filter (isMatchOn key) = [] := by
  cases h : truthy v <;> simp [docIdClauses, h, isMatchOn, Ne.symm hk]

theorem filter_match_sourceClauses_source (v : JsValue) :
    (sourceClauses v).filter (isMatchOn "source")
      = if truthy v then [Clause.matchValue "source" v] else [] := by
  cases h : truthy v <;> simp [sourceClauses, h, isMatchOn]

theorem filter_match_sourceClauses_other (key : String) (v : JsValue) (hk : key ≠ "source") :
    (sourceClauses v).filter (isMatchOn key) = [] := by
  cases h : truthy v <;> simp [sourceClauses, h, isMatchOn, Ne.symm hk]

/-- C4: each of `tag`, `docId`, `source` that is supplied with a truthy value
contributes exactly one exact-match equality clause keyed to its stored
attribute name (`tags`, `doc_id`, `source` respectively) carrying that value;
a falsy value contributes none; and every filter `buildFilter` produces is a
single conjunctive `must` list holding all the clauses. -/
theorem C4_equality_clauses (tag mi docId src : JsValue) :
    ((filterClauses (buildFilter tag mi docId src)).filter (isMatchOn "tags")
        = if truthy tag then [Clause.matchValue "tags" tag] else []) ∧
    ((filterClauses (buildFilter tag mi docId src)).filter (isMatchOn "doc_id")
        = if truthy docId then [Clause.matchValue "doc_id" docId] else []) ∧
    ((filterClauses (buildFilter tag mi docId src)).filter (isMatchOn "source")
        = if truthy src then [Clause.matchValue "source" src] else []) ∧
    (buildFilter tag mi docId src = none ∨
      buildFilter tag mi docId src = some (mustList tag mi docId src)) := by
  rw [filterClauses_buildFilter]
  refine ⟨?_, ?_, ?_, ?_⟩
  · simp [mustList, List.filter_append, filter_match_tagClauses_tags,
      filter_match_docIdClauses_other, filter_match_sourceClauses_other,
      filter_match_importanceClauses]
  · simp [mustList, List.filter_append, filter_match_tagClauses_other,
      filter_match_docIdClauses_docId, filter_match_sourceClauses_other,
      filter_match_importanceClauses]
  · simp [mustList, List.filter_append, filter_match_tagClauses_other,
      filter_match_docIdClauses_other, filter_match_sourceClauses_source,
      filter_match_importanceClauses]
  · unfold buildFilter
    rcases h : mustList tag mi docId src with _ | ⟨c, cs⟩ <;> simp [h]

/-- C4 counterexample: `tag` supplied as the empty string is present in the
request yet contributes no equality clause (the whole filter is `undefined`),
refuting "each ... that is present contributes exactly one equality clause". -/
theorem C4_counterexample :
    mustList (JsValue.str "") JsValue.undefined JsValue.undefined JsValue.undefined = [] ∧
    buildFilter (JsValue.str "") JsValue.undefined JsValue.undefined JsValue.undefined
      = none := by decide

/-- C10: a `tag`, `docId` or `source` supplied as the empty string contributes
no filter clause: the constructed filter is identical to the one built with
that field absent. -/
theorem C10_empty_string_fields (tag mi docId src : JsValue) :
    (buildFilter (JsValue.str "") mi docId src
        = buildFilter JsValue.undefined mi docId src) ∧
    (buildFilter tag mi (JsValue.str "") src
        = buildFilter tag mi JsValue.undefined src) ∧
    (buildFilter tag mi docId (JsValue.str "")
        = buildFilter tag mi docId JsValue.undefined) :=
  ⟨rfl, rfl, rfl⟩

theorem searchHandler_valid {V S P : Type} (e : String → Except String V)
    (s : SearchArgs V → Except String (List (QMatch S P))) (b : Body) (q : String)
    (hq : b.query = JsValue.str q) (hne : q ≠ "") :
    searchHandler e s (some b) =
      match e q with
      | Except.error msg => ⟨500, SearchBody.err msg, [q], []⟩
      | Except.ok v =>
          match s (argsOf v b) with
          | Except.error msg => ⟨500, SearchBody.err msg, [q], [argsOf v b]⟩
          | Except.ok ms =>
              ⟨200,
               SearchBody.results ms.length
                 (ms.map (fun m => ⟨stringifyId m.id, m.score, m.payload⟩)),
               [q], [argsOf v b]⟩ := by
  obtain ⟨bq, btk, btag, bmi, bdoc, bsrc⟩ := b
  simp only at hq
  subst hq
  simp only [searchHandler, Option.getD_some]
  rw [if_neg hne]

theorem mem_searchCalls {V S P : Type} (e : String → Except String V)
    (s : SearchArgs V → Except String (List (QMatch S P))) (rb : Option Body)
    (a : SearchArgs V) (ha : a ∈ (searchHandler e s rb).searchCalls) :
    ∃ v, a = argsOf v (rb.getD emptyBody) := by
  rcases rb with _ | b
  · simp [searchHandler, emptyBody] at ha
  · obtain ⟨bq, btk, btag, bmi, bdoc, bsrc⟩ := b
    cases bq with
    | str s0 =>
        by_cases h0 : s0 = ""
        · subst h0; simp [searchHandler] at ha
        · rw [searchHandler_valid e s _ s0 rfl h0] at ha
          cases he : e s0 with
          | error msg => rw [he] at ha; simp at ha
          | ok v =>
              rw [he] at ha
              simp only [Option.getD_some]
              cases hs : s (argsOf v ⟨JsValue.str s0, btk, btag, bmi, bdoc, bsrc⟩) with
              | error msg => simp [hs] at ha; exact ⟨v, ha⟩
              | ok ms => simp [hs] at ha; exact ⟨v, ha⟩
    | undefined => simp [searchHandler] at ha
    | null => simp [searchHandler] at ha
    | bool b0 => simp [searchHandler] at ha
    | num n0 => simp [searchHandler] at ha
    | obj => simp [searchHandler] at ha

/-- C3: a request whose body is missing `query`, or whose `query` is the empty
string or not a string, is answered with status 400, and neither the embedding
collaborator nor the vector-database collaborator is invoked. -/
theorem C3_invalid_query_rejected {V S P : Type} (e : String → Except String V)
    (s : SearchArgs V → Except String (List (QMatch S P))) (b : Body)
    (h : b.query = JsValue.undefined ∨ b.query = JsValue.str "" ∨ isJsString b.query = false) :
    (searchHandler e s (some b)).status = 400 ∧
    (searchHandler e s (some b)).embedCalls = [] ∧
    (searchHandler e s (some b)).searchCalls = [] := by
  obtain ⟨bq, btk, btag, bmi, bdoc, bsrc⟩ := b
  cases bq with
  | str s0 =>
      have hs0 : s0 = "" := by
        rcases h with h | h | h
        · exact absurd h (by simp)
        · exact JsValue.str.inj h
        · simp [isJsString] at h
      subst hs0
      simp [searchHandler]
  | undefined => simp [searchHandler]
  | null => simp [searchHandler]
  | bool b0 => simp [searchHandler]
  | num n0 => simp [searchHandler]
  | obj => simp [searchHandler]

/-- C3 witness: a body with no `query` field at all is rejected with 400 and
no collaborator call. -/
theorem C3_invalid_query_rejected_witness :
    (searchHandler okEmbed emptySearch (some emptyBody)).status = 400 ∧
    (searchHandler okEmbed emptySearch (some emptyBody)).embedCalls = [] ∧
    (searchHandler okEmbed emptySearch (some emptyBody)).searchCalls = [] :=
  C3_invalid_query_rejected okEmbed emptySearch emptyBody (Or.inl rfl)

/-- C9: a request whose body is entirely absent (`undefined`/`null`) does not
crash the handler: it is treated exactly like an empty object, yielding the
same 400 response as a missing `query`, with no collaborator invoked. -/
theorem C9_missing_body {V S P : Type} (e : String → Except String V)
    (s : SearchArgs V → Except String (List (QMatch S P))) :
    searchHandler e s none = ⟨400, SearchBody.err "query (string) is required", [], []⟩ ∧
    searchHandler e s none = searchHandler e s (some emptyBody) :=
  ⟨rfl, rfl⟩

/-- C2: every vector-search invocation receives `limit = Number(topK) || 5`:
the numeric coercion of `topK` when it is a nonzero number, and 5 when `topK`
is missing, non-numeric, or zero; nonzero values — negative ones included —
are passed through uncorrected. -/
theorem C2_limit {V S P : Type} (e : String → Except String V)
    (s : SearchArgs V → Except String (List (QMatch S P))) (b : Body) :
    (∀ a ∈ (searchHandler e s (some b)).searchCalls, a.limit = limitOf (effTopK b)) ∧
    (b.topK = JsValue.undefined → limitOf (effTopK b) = 5) ∧
    (toNumber b.topK = JsNum.nan → limitOf (effTopK b) = 5) ∧
    (toNumber b.topK = JsNum.val 0 → limitOf (effTopK b) = 5) ∧
    (∀ r : Rat, r ≠ 0 → toNumber b.topK = JsNum.val r → limitOf (effTopK b) = r) := by
  refine ⟨?_, ?_, ?_, ?_, ?_⟩
  · intro a ha
    obtain ⟨v, hv⟩ := mem_searchCalls e s (some b) a ha
    rw [hv]
    rfl
  · intro h
    simp [effTopK, h, limitOf, toNumber]
  · intro h
    obtain ⟨bq, btk, btag, bmi, bdoc, bsrc⟩ := b
    simp only at h ⊢
    cases btk <;> simp_all [effTopK, limitOf, toNumber]
  · intro h
    obtain ⟨bq, btk, btag, bmi, bdoc, bsrc⟩ := b
    simp only at h ⊢
    cases btk <;> simp_all [effTopK, limitOf, toNumber]
  · intro r hr h
    obtain ⟨bq, btk, btag, bmi, bdoc, bsrc⟩ := b
    simp only at h ⊢
    cases btk <;> simp_all [effTopK, limitOf, toNumber]

/-- C2 witness: with `topK` absent the effective limit is 5 and every search
call of the concrete request carries it; with `topK = 0` the limit is also 5. -/
theorem C2_limit_witness :
    limitOf (effTopK catsBody) = 5 ∧
    (∀ a ∈ (searchHandler okEmbed emptySearch (some catsBody)).searchCalls,
      a.limit = limitOf (effTopK catsBody)) ∧
    limitOf (effTopK zeroTopKBody) = 5 :=
  ⟨(C2_limit okEmbed emptySearch catsBody).2.1 rfl,
   (C2_limit okEmbed emptySearch catsBody).1,
   (C2_limit okEmbed emptySearch zeroTopKBody).2.2.2.1 rfl⟩

/-- C2 counterexample: for `topK = 0` (a zero numeric value) the search is
invoked with limit 5, not with the claimed pass-through value 0. -/
theorem C2_counterexample :
    (searchHandler okEmbed emptySearch (some zeroTopKBody)).searchCalls.map SearchArgs.limit
        = [5] ∧
    ¬ (searchHandler okEmbed emptySearch (some zeroTopKBody)).searchCalls.map SearchArgs.limit
        = [0] := by decide

/-- C5: for a valid request with none of the optional filter fields present,
the vector search is invoked exactly once with `filter` undefined (`none`), an
unconstrained search; and when `topK` is also absent its limit is 5. -/
theorem C5_no_optional_fields {V S P : Type} (e : String → Except String V)
    (s : SearchArgs V → Except String (List (QMatch S P))) (b : Body) (q : String) (v : V)
    (hq : b.query = JsValue.str q) (hne : q ≠ "") (he : e q = Except.ok v)
    (htag : b.tag = JsValue.undefined) (hmi : b.minImportance = JsValue.undefined)
    (hdoc : b.docId = JsValue.undefined) (hsrc : b.source = JsValue.undefined) :
    (searchHandler e s (some b)).searchCalls = [argsOf v b] ∧
    (argsOf v b).filter = none ∧
    (b.topK = JsValue.undefined → (argsOf v b).limit = 5) := by
  refine ⟨?_, ?_, ?_⟩
  · rw [searchHandler_valid e s b q hq hne]
    cases hs : s (argsOf v b) <;> simp [he, hs]
  · show buildFilter b.tag b.minImportance b.docId b.source = none
    rw [htag, hmi, hdoc, hsrc]
    decide
  · intro h
    show limitOf (effTopK b) = 5
    simp [effTopK, h, limitOf, toNumber]

/-- C5 witness: `POST /api/search {"query":"cats"}` invokes the search once
with `filter = none` and `limit = 5`. -/
theorem C5_no_optional_fields_witness :
    (searchHandler okEmbed emptySearch (some catsBody)).searchCalls = [argsOf () catsBody] ∧
    (argsOf () catsBody).filter = none ∧
    (argsOf () catsBody).limit = 5 :=
  ⟨(C5_no_optional_fields okEmbed emptySearch catsBody "cats" () rfl (by decide) rfl
      rfl rfl rfl rfl).1,
   (C5_no_optional_fields okEmbed emptySearch catsBody "cats" () rfl (by decide) rfl
      rfl rfl rfl rfl).2.1,
   (C5_no_optional_fields okEmbed emptySearch catsBody "cats" () rfl (by decide) rfl
      rfl rfl rfl rfl).2.2 rfl⟩

/-- C6: for every valid request the response count equals the length of the
hit list, and each returned match is mapped to a hit whose id is the
stringified match identifier (text regardless of the underlying id type),
whose score is passed through unchanged, and whose payload is passed through
unchanged. -/
theorem C6_response_shape {V S P : Type} (e : String → Except String V)
    (ms : List (QMatch S P)) (b : Body) (q : String) (v : V)
    (hq : b.query = JsValue.str q) (hne : q ≠ "") (he : e q = Except.ok v) :
    (∀ (s : SearchArgs V → Except String (List (QMatch S P))) (rb : Option Body)
        (c : Nat) (hits : List (Hit S P)),
        (searchHandler e s rb).body = SearchBody.results c hits → c = hits.length) ∧
    (searchHandler e (fun _ => Except.ok ms) (some b)).body =
      SearchBody.results ms.length
        (ms.map (fun m => ⟨stringifyId m.id, m.score, m.payload⟩)) := by
  constructor
  · intro s rb c hits hbody
    rcases rb with _ | b2
    · simp [searchHandler, emptyBody] at hbody
    · obtain ⟨bq, btk, btag, bmi, bdoc, bsrc⟩ := b2
      cases bq with
      | str s0 =>
          by_cases h0 : s0 = ""
          · subst h0; simp [searchHandler] at hbody
          · rw [searchHandler_valid e s _ s0 rfl h0] at hbody
            cases he2 : e s0 with
            | error msg => rw [he2] at hbody; simp at hbody
            | ok v2 =>
                rw [he2] at hbody
                cases hs : s (argsOf v2 ⟨JsValue.str s0, btk, btag, bmi, bdoc, bsrc⟩) with
                | error msg => simp [hs] at hbody
                | ok ms2 =>
                    simp [hs] at hbody
                    obtain ⟨hc, hh⟩ := hbody
                    subst hc
                    rw [← hh, List.length_map]
      | undefined => simp [searchHandler] at hbody
      | null => simp [searchHandler] at hbody
      | bool b0 => simp [searchHandler] at hbody
      | num n0 => simp [searchHandler] at hbody
      | obj => simp [searchHandler] at hbody
  · rw [searchHandler_valid e (fun _ => Except.ok ms) b q hq hne]
    simp [he]

/-- A concrete search result with one integer id and one UUID id; scores and
payloads are opaque strings. -/
def sampleMatches : List (QMatch String String) :=
  [⟨PointId.int 42, "0.93", "payload-a"⟩, ⟨PointId.uuid "ab-12", "0.87", "payload-b"⟩]

/-- C6 witness: a concrete two-match result is mapped to hits with stringified
ids and untouched scores and payloads, and the count is the hit-list length. -/
theorem C6_response_shape_witness :
    (searchHandler okEmbed (fun _ => Except.ok sampleMatches) (some catsBody)).body =
      SearchBody.results sampleMatches.length
        (sampleMatches.map (fun m => ⟨stringifyId m.id, m.score, m.payload⟩)) :=
  (C6_response_shape okEmbed sampleMatches catsBody "cats" () rfl (by decide) rfl).2

/-- C7: for a valid request, an exception thrown by the embedding call or by
the vector search is caught at the handler boundary and surfaced as an HTTP
500 response whose body carries the stringified error; each collaborator is
invoked at most once (no retry) and the body carries no partial result. -/
theorem C7_upstream_failure {V S P : Type} (e : String → Except String V)
    (s : SearchArgs V → Except String (List (QMatch S P))) (b : Body) (q msg : String)
    (hq : b.query = JsValue.str q) (hne : q ≠ "") :
    (e q = Except.error msg →
      searchHandler e s (some b) = ⟨500, SearchBody.err msg, [q], []⟩) ∧
    (∀ v, e q = Except.ok v → s (argsOf v b) = Except.error msg →
      searchHandler e s (some b) = ⟨500, SearchBody.err msg, [q], [argsOf v b]⟩) := by
  rw [searchHandler_valid e s b q hq hne]
  constructor
  · intro he
    rw [he]
  · intro v he hs
    simp [he, hs]

/-- C7 witness: a throwing embedder yields `500` with the stringified error
and no search call; a throwing search yields `500` after exactly one embed
call and one search call. -/
theorem C7_upstream_failure_witness :
    (searchHandler failEmbed emptySearch (some catsBody)
      = ⟨500, SearchBody.err "embed down", ["cats"], []⟩) ∧
    (searchHandler okEmbed failSearch (some catsBody)
      = ⟨500, SearchBody.err "qdrant down", ["cats"], [argsOf () catsBody]⟩) :=
  ⟨(C7_upstream_failure failEmbed emptySearch catsBody "cats" "embed down" rfl
      (by decide)).1 rfl,
   (C7_upstream_failure okEmbed failSearch catsBody "cats" "qdrant down" rfl
      (by decide)).2 () rfl rfl⟩

/-- C8: when the collection listing of `GET /api/health` throws, the response
is status 500 with body (ok: false, error); when it resolves with a
collection list, the response is status 200 with (ok: true) and the collection
names. -/
theorem C8_health (g : Except String CollectionsInfo) :
    (∀ msg, g = Except.error msg → healthHandler g = (500, HealthBody.err msg)) ∧
    (∀ cols, g = Except.ok ⟨some cols⟩ →
      healthHandler g = (200, HealthBody.ok (some (cols.map Collection.name)))) := by
  constructor
  · intro msg h
    rw [h]
    rfl
  · intro cols h
    rw [h]
    rfl

/-- C8 witness: an unreachable database yields `(500, err)`; a listing with
one collection yields `(200, ok ["youtube_rag"])`. -/
theorem C8_health_witness :
    healthHandler (Except.error "ECONNREFUSED") = (500, HealthBody.err "ECONNREFUSED") ∧
    healthHandler (Except.ok ⟨some [⟨"youtube_rag"⟩]⟩)
      = (200, HealthBody.ok (some ["youtube_rag"])) :=
  ⟨(C8_health (Except.error "ECONNREFUSED")).1 "ECONNREFUSED" rfl,
   (C8_health (Except.ok ⟨some [⟨"youtube_rag"⟩]⟩)).2 [⟨"youtube_rag"⟩] rfl⟩
